import Mathlib

/-!
Shallow embedding of the `lunar-magic-wrapper` crate (`src/lib.rs`) and proofs
about its command construction, process-invocation protocol and error
classification.

The crate is a thin wrapper around an external command-line tool: each public
method renders a fixed keyword plus arguments into a command string, the shared
`run_command`/`run_and_log` routines check the tool path, create a temporary
directory, run the command through `cmd` with output redirected into a log
file inside that directory, read the log back and classify the outcome.

Effectful primitives (filesystem existence checks, temporary-directory
creation, process spawning, file opening and line reads) are modelled by an
`OS` oracle record, and the observable side effects of one invocation are
recorded as an explicit event trace.
-/

namespace LunarMagicWrapper

/-! ### Whitespace token counting

`numTokens` counts the space-separated fields of a string, the way the shell
layer splits a command line at each space character.  It is used to state the
properties about optional trailing arguments and unquoted paths. -/

/-- Fields of a character list obtained by splitting at every space. -/
def splitFields : List Char → List (List Char)
  | [] => [[]]
  | c :: cs =>
    match splitFields cs with
    | [] => [[]]
    | f :: fs => if c = ' ' then [] :: f :: fs else (c :: f) :: fs

/-- Number of whitespace-separated tokens (fields) of a string. -/
def numTokens (s : String) : Nat := (splitFields s.data).length

/-- Number of space characters of a string. -/
def spaceCount (s : String) : Nat := s.data.count ' '

theorem splitFields_ne_nil (l : List Char) : splitFields l ≠ [] := by
  cases l with
  | nil => simp [splitFields]
  | cons c cs =>
    simp only [splitFields]
    rcases h : splitFields cs with _ | ⟨f, fs⟩
    · simp
    · by_cases hc : c = ' ' <;> simp [hc]

theorem length_splitFields (l : List Char) : (splitFields l).length = l.count ' ' + 1 := by
  induction l with
  | nil => simp [splitFields]
  | cons c cs ih =>
    rcases h : splitFields cs with _ | ⟨f, fs⟩
    · exact absurd h (splitFields_ne_nil cs)
    · rw [h] at ih
      by_cases hc : c = ' ' <;>
        simp [splitFields, h, hc, List.count_cons] at ih ⊢ <;> omega

/-- Token counting is space counting plus one. -/
theorem numTokens_eq_spaceCount (s : String) : numTokens s = spaceCount s + 1 :=
  length_splitFields s.data

theorem spaceCount_append (s t : String) :
    spaceCount (s ++ t) = spaceCount s + spaceCount t := by
  simp [spaceCount, String.data_append, List.count_append]

/-! ### Decimal rendering of numbers contains no spaces -/

theorem digitChar_ne_space (n : Nat) (h : n < 10) : Nat.digitChar n ≠ ' ' := by
  interval_cases n <;> decide

theorem toDigitsCore_no_space (fuel : Nat) :
    ∀ (n : Nat) (ds : List Char), (∀ c ∈ ds, c ≠ ' ') →
      ∀ c ∈ Nat.toDigitsCore 10 fuel n ds, c ≠ ' ' := by
  induction fuel with
  | zero => intro n ds h; simpa [Nat.toDigitsCore] using h
  | succ fuel ih =>
    intro n ds h
    have hds : ∀ c ∈ Nat.digitChar (n % 10) :: ds, c ≠ ' ' := by
      intro c hc
      rcases List.mem_cons.1 hc with rfl | hc
      · exact digitChar_ne_space _ (Nat.mod_lt _ (by decide))
      · exact h c hc
    simp only [Nat.toDigitsCore]
    split
    · exact hds
    · exact ih (n / 10) _ hds

theorem not_mem_space_natRepr (n : Nat) : ' ' ∉ (Nat.repr n).data := fun hmem =>
  toDigitsCore_no_space (n + 1) n [] (by simp) ' ' hmem rfl

theorem spaceCount_natRepr (n : Nat) : spaceCount (Nat.repr n) = 0 :=
  List.count_eq_zero.2 (not_mem_space_natRepr n)

theorem spaceCount_toString_nat (n : Nat) : spaceCount (toString n) = 0 :=
  spaceCount_natRepr n

/-! ### The data model of the crate -/

/-- Errors raised by an operation, mirroring the Rust `WrapperErr` enum. -/
inductive WrapperErr where
  | LunarMagicMissing (command : String)
  | Operation (code : Option Int) (command : String) (output : List String)
  | FailedToExecute (command : String)
  | NoTempFile (command : String)
  | NoTempDir (command : String)
deriving DecidableEq, Repr

/-- The command line stored in an error value (the `command` field that every
variant of `WrapperErr` carries). -/
def WrapperErr.command : WrapperErr → String
  | .LunarMagicMissing command => command
  | .Operation _ command _ => command
  | .FailedToExecute command => command
  | .NoTempFile command => command
  | .NoTempDir command => command

/-- Result of invoking an operation: the Rust `ResultL` alias
`Result<Vec<String>, WrapperErr>`. -/
abbrev ResultL := Except WrapperErr (List String)

/-- Exit information of the spawned process, mirroring `process::Output`:
the field `status` is the value of `ExitStatus::code()` (absent when the OS
reports no exit code). -/
structure ProcessOutput where
  status : Option Int
deriving DecidableEq, Repr

/-- Embedding of `ExitStatus::success()`: the process exited with code 0. -/
def ProcessOutput.success (r : ProcessOutput) : Bool := r.status == some 0

/-- Oracle supplying the outcomes of the effectful primitives the wrapper
uses, so that one invocation becomes a pure function of the oracle. -/
structure OS where
  /-- Outcome of `Path::exists` per queried path. -/
  path_exists : String → Bool
  /-- Outcome of `tempfile::tempdir()`: the fresh directory's path, or `none`
  when creation fails. -/
  tempdir : Option String
  /-- Outcome of `Command::new("cmd").args(["/C", args]).output()`, keyed by
  the full shell argument string; `none` when the OS cannot launch the
  process. -/
  spawn : String → Option ProcessOutput
  /-- Outcome of `File::open` plus `BufReader::lines`, keyed by file path:
  `none` when the file cannot be opened, otherwise the list of line-read
  results, where a `none` entry is a line whose read fails with an
  `io::Error` (for example invalid UTF-8 bytes). -/
  open_file : String → Option (List (Option String))

/-- Observable side effects of one invocation, in order of occurrence. -/
inductive Event where
  | tempDirCreated (dir : String)
  | processLaunched (args : String)
  | logOpened (file : String)
  | tempDirReleased (dir : String)
deriving DecidableEq, Repr

/-- Embedding of `log_dir.path().join("lunar_magic.log")`. -/
def logFilePath (log_dir : String) : String := log_dir ++ "\\" ++ "lunar_magic.log"

/-- The argument string handed to `cmd /C`: the main command followed by
redirection of its output into the log file, that is
`format!("{} > {}", main_command, log_file_path)`. -/
def shellLine (main_command log_file_path : String) : String :=
  main_command ++ " > " ++ log_file_path

/-- Embedding of `lines.map(|l| l.expect("Failed to read line")).collect()`:
collects the line-read results, aborting with `none` (the `expect` panic) at
the first line whose read failed. -/
def collectLines : List (Option String) → Option (List String)
  | [] => some []
  | some s :: rest => (collectLines rest).map (s :: ·)
  | none :: _ => none

/-- The wrapper itself: holds only the configured tool path
(`lunar_magic_path: PathBuf`, taken here as its lossy string). -/
structure Wrapper where
  lunar_magic_path : String
deriving DecidableEq, Repr

/-- Embedding of `Wrapper::run_and_log`, the shared invocation routine.
Returns the invocation result, where `none` models the panic raised by
`expect` while collecting log lines, together with the trace of observable
events (the temporary directory guard is dropped, hence released, on every
exit path of the Rust scope, the panic path included). -/
def Wrapper.run_and_log (os : OS) (self : Wrapper) (command_string : String) :
    Option ResultL × List Event :=
  let main_command := self.lunar_magic_path ++ " " ++ command_string
  match os.tempdir with
  | some log_dir =>
    let log_file_path := logFilePath log_dir
    let args := shellLine main_command log_file_path
    match os.spawn args with
    | some result =>
      match os.open_file log_file_path with
      | some line_results =>
        match collectLines line_results with
        | some output =>
          if !result.success then
            (some (.error (.Operation result.status main_command output)),
             [.tempDirCreated log_dir, .processLaunched args,
              .logOpened log_file_path, .tempDirReleased log_dir])
          else
            (some (.ok output),
             [.tempDirCreated log_dir, .processLaunched args,
              .logOpened log_file_path, .tempDirReleased log_dir])
        | none =>
          (none,
           [.tempDirCreated log_dir, .processLaunched args,
            .logOpened log_file_path, .tempDirReleased log_dir])
      | none =>
        (some (.error (.NoTempFile main_command)),
         [.tempDirCreated log_dir, .processLaunched args,
          .tempDirReleased log_dir])
    | none =>
      (some (.error (.FailedToExecute main_command)),
       [.tempDirCreated log_dir, .tempDirReleased log_dir])
  | none => (some (.error (.NoTempDir main_command)), [])

/-- Embedding of `Wrapper::run_command`: checks that the tool exists before
delegating to `run_and_log`. -/
def Wrapper.run_command (os : OS) (self : Wrapper) (command_string : String) :
    Option ResultL × List Event :=
  if !os.path_exists self.lunar_magic_path then
    (some (.error (.LunarMagicMissing
      (self.lunar_magic_path ++ " " ++ command_string))), [])
  else
    self.run_and_log os command_string

/-! ### Enumerated option sets and flag sets -/

/-- Valid ROM sizes for `expand_rom`, mirroring the Rust `RomSize` enum. -/
inductive RomSize where
  | _2mb
  | _3mb
  | _4mb
  | _6mbSa1
  | _8mbSa1
deriving DecidableEq, Repr

/-- Embedding of `impl ToString for RomSize`. -/
def RomSize.to_string : RomSize → String
  | RomSize._2mb => "2MB"
  | RomSize._3mb => "3MB"
  | RomSize._4mb => "4MB"
  | RomSize._6mbSa1 => "6MB_SA1"
  | RomSize._8mbSa1 => "8MB_SA1"

/-- Valid compression formats for `change_compression`, mirroring the Rust
`CompressionFormat` enum. -/
inductive CompressionFormat where
  | LcLz2Orig
  | LcLz2Speed
  | LcLz3
deriving DecidableEq, Repr

/-- Embedding of `impl ToString for CompressionFormat`. -/
def CompressionFormat.to_string : CompressionFormat → String
  | CompressionFormat.LcLz2Orig => "LC_LZ2_Orig"
  | CompressionFormat.LcLz2Speed => "LC_LZ2_Speed"
  | CompressionFormat.LcLz3 => "LC_LZ3"

/-- The `bitflags!` set `LevelImportFlag` (backed by a `u32` bit pattern). -/
structure LevelImportFlag where
  bits : Nat
deriving DecidableEq, Repr

def LevelImportFlag.None : LevelImportFlag := ⟨0⟩

def LevelImportFlag.ClearSecondaryExits : LevelImportFlag := ⟨1⟩

/-- Flag combination: the `bitflags` bitwise-or of the two bit patterns. -/
def LevelImportFlag.or (a b : LevelImportFlag) : LevelImportFlag := ⟨a.bits ||| b.bits⟩

/-- The `bitflags!` set `LevelExportFlag` (backed by a `u32` bit pattern). -/
structure LevelExportFlag where
  bits : Nat
deriving DecidableEq, Repr

def LevelExportFlag.None : LevelExportFlag := ⟨0⟩

def LevelExportFlag.OnlyModifiedLevels : LevelExportFlag := ⟨1⟩

/-- Flag combination: the `bitflags` bitwise-or of the two bit patterns. -/
def LevelExportFlag.or (a b : LevelExportFlag) : LevelExportFlag := ⟨a.bits ||| b.bits⟩

/-! ### Command-string builders

One definition per public method, rendering the `format!` literal of the Rust
source.  Paths appear as their lossy UTF-8 strings; numbers render in
decimal via `toString`. -/

/-- Argument string of `export_gfx`: `format!("-ExportGFX {}", ..)`. -/
def export_gfx_cmd (rom_path : String) : String :=
  "-ExportGFX " ++ rom_path

/-- Argument string of `export_exgfx`: `format!("-ExportExGFX {}", ..)`. -/
def export_exgfx_cmd (rom_path : String) : String :=
  "-ExportExGFX " ++ rom_path

/-- Argument string of `import_gfx`: `format!("-ImportGFX {}", ..)`. -/
def import_gfx_cmd (rom_path : String) : String :=
  "-ImportGFX " ++ rom_path

/-- Argument string of `import_exgfx`: `format!("-ImportExGFX {}", ..)`. -/
def import_exgfx_cmd (rom_path : String) : String :=
  "-ImportExGFX " ++ rom_path

/-- Argument string of `import_all_graphics`:
`format!("-ImportAllGraphics {}", ..)`. -/
def import_all_graphics_cmd (rom_path : String) : String :=
  "-ImportAllGraphics " ++ rom_path

/-- Argument string of `export_level`:
`format!("-ExportLevel {} {} {}", rom, mwl, level_number)`. -/
def export_level_cmd (rom_path mwl_path : String) (level_number : Nat) : String :=
  "-ExportLevel " ++ rom_path ++ " " ++ mwl_path ++ " " ++ toString level_number

/-- Argument string of `import_level`: the level number is optional and its
token is dropped entirely when absent. -/
def import_level_cmd (rom_path mwl_path : String) (level_number : Option Nat) : String :=
  match level_number with
  | some level_number =>
    "-ImportLevel " ++ rom_path ++ " " ++ mwl_path ++ " " ++ toString level_number
  | none =>
    "-ImportLevel " ++ rom_path ++ " " ++ mwl_path

/-- Argument string of `import_map16`: the location is optional, rendered as
`"x,y"` when present and dropped entirely otherwise. -/
def import_map16_cmd (rom_path map16_path : String) (level_number : Nat)
    (location : Option (Nat × Nat)) : String :=
  match location with
  | some (x, y) =>
    "-ImportMap16 " ++ rom_path ++ " " ++ map16_path ++ " " ++
      toString level_number ++ " " ++ toString x ++ "," ++ toString y
  | none =>
    "-ImportMap16 " ++ rom_path ++ " " ++ map16_path ++ " " ++ toString level_number

/-- Argument string of `import_custom_palette`:
`format!("-ImportCustomPalette {} {} {}", ..)`. -/
def import_custom_palette_cmd (rom_path palette_path : String)
    (level_number : Nat) : String :=
  "-ImportCustomPalette " ++ rom_path ++ " " ++ palette_path ++ " " ++
    toString level_number

/-- Argument string of `export_shared_palette`. -/
def export_shared_palette_cmd (rom_path palette_path : String) : String :=
  "-ExportSharedPalette " ++ rom_path ++ " " ++ palette_path

/-- Argument string of `import_shared_palette`. -/
def import_shared_palette_cmd (rom_path palette_path : String) : String :=
  "-ImportSharedPalette " ++ rom_path ++ " " ++ palette_path

/-- Argument string of `export_all_map16`. -/
def export_all_map16_cmd (rom_path map16_path : String) : String :=
  "-ExportAllMap16 " ++ rom_path ++ " " ++ map16_path

/-- Argument string of `import_all_map16`. -/
def import_all_map16_cmd (rom_path map16_path : String) : String :=
  "-ImportAllMap16 " ++ rom_path ++ " " ++ map16_path

/-- Argument string of `export_mult_levels`: the flags are optional, rendered
as the decimal of `flags.bits()` when present, dropped entirely otherwise. -/
def export_mult_levels_cmd (rom_path mwl_path : String)
    (flags : Option LevelExportFlag) : String :=
  match flags with
  | some flags =>
    "-ExportMultLevels " ++ rom_path ++ " " ++ mwl_path ++ " " ++ toString flags.bits
  | none =>
    "-ExportMultLevels " ++ rom_path ++ " " ++ mwl_path

/-- Argument string of `import_mult_levels`: the flags are optional, rendered
as the decimal of `flags.bits()` when present, dropped entirely otherwise. -/
def import_mult_levels_cmd (rom_path level_directory : String)
    (flags : Option LevelImportFlag) : String :=
  match flags with
  | some flags =>
    "-ImportMultLevels " ++ rom_path ++ " " ++ level_directory ++ " " ++
      toString flags.bits
  | none =>
    "-ImportMultLevels " ++ rom_path ++ " " ++ level_directory

/-- Argument string of `expand_rom`:
`format!("-ExpandROM {} {}", rom, rom_size.to_string())`. -/
def expand_rom_cmd (rom_path : String) (rom_size : RomSize) : String :=
  "-ExpandROM " ++ rom_path ++ " " ++ rom_size.to_string

/-- Argument string of `change_compression`:
`format!("-ChangeCompression {} {}", rom, format.to_string())`. -/
def change_compression_cmd (rom_path : String)
    (compression_format : CompressionFormat) : String :=
  "-ChangeCompression " ++ rom_path ++ " " ++ compression_format.to_string

/-- Argument string of `transfer_level_global_exanim`. -/
def transfer_level_global_exanim_cmd (dest_rom_path src_rom_path : String) : String :=
  "-TransferLevelGlobalExAnim " ++ dest_rom_path ++ " " ++ src_rom_path

/-- Argument string of `transfer_overworld`. -/
def transfer_overworld_cmd (dest_rom_path src_rom_path : String) : String :=
  "-TransferOverworld " ++ dest_rom_path ++ " " ++ src_rom_path

/-- Argument string of `transfer_title_screen`. -/
def transfer_title_screen_cmd (dest_rom_path src_rom_path : String) : String :=
  "-TransferTitleScreen " ++ dest_rom_path ++ " " ++ src_rom_path

/-- Argument string of `transfer_credits`. -/
def transfer_credits_cmd (dest_rom_path src_rom_path : String) : String :=
  "-TransferCredits " ++ dest_rom_path ++ " " ++ src_rom_path

/-- Argument string of `export_title_moves`. -/
def export_title_moves_cmd (rom_path title_moves_path : String) : String :=
  "-ExportTitleMoves " ++ rom_path ++ " " ++ title_moves_path

/-- Argument string of `import_title_moves`. -/
def import_title_moves_cmd (rom_path title_moves_path : String) : String :=
  "-ImportTitleMoves " ++ rom_path ++ " " ++ title_moves_path

/-! ### The public operation methods

Each public method of the Rust `impl Wrapper` funnels its rendered argument
string into `run_command`. -/

def Wrapper.export_gfx (os : OS) (self : Wrapper) (rom_path : String) :
    Option ResultL × List Event :=
  self.run_command os (export_gfx_cmd rom_path)

def Wrapper.export_exgfx (os : OS) (self : Wrapper) (rom_path : String) :
    Option ResultL × List Event :=
  self.run_command os (export_exgfx_cmd rom_path)

def Wrapper.import_gfx (os : OS) (self : Wrapper) (rom_path : String) :
    Option ResultL × List Event :=
  self.run_command os (import_gfx_cmd rom_path)

def Wrapper.import_exgfx (os : OS) (self : Wrapper) (rom_path : String) :
    Option ResultL × List Event :=
  self.run_command os (import_exgfx_cmd rom_path)

def Wrapper.import_all_graphics (os : OS) (self : Wrapper) (rom_path : String) :
    Option ResultL × List Event :=
  self.run_command os (import_all_graphics_cmd rom_path)

def Wrapper.export_level (os : OS) (self : Wrapper) (rom_path mwl_path : String)
    (level_number : Nat) : Option ResultL × List Event :=
  self.run_command os (export_level_cmd rom_path mwl_path level_number)

def Wrapper.import_level (os : OS) (self : Wrapper) (rom_path mwl_path : String)
    (level_number : Option Nat) : Option ResultL × List Event :=
  self.run_command os (import_level_cmd rom_path mwl_path level_number)

def Wrapper.import_map16 (os : OS) (self : Wrapper) (rom_path map16_path : String)
    (level_number : Nat) (location : Option (Nat × Nat)) :
    Option ResultL × List Event :=
  self.run_command os (import_map16_cmd rom_path map16_path level_number location)

def Wrapper.import_custom_palette (os : OS) (self : Wrapper)
    (rom_path palette_path : String) (level_number : Nat) :
    Option ResultL × List Event :=
  self.run_command os (import_custom_palette_cmd rom_path palette_path level_number)

def Wrapper.export_shared_palette (os : OS) (self : Wrapper)
    (rom_path palette_path : String) : Option ResultL × List Event :=
  self.run_command os (export_shared_palette_cmd rom_path palette_path)

def Wrapper.import_shared_palette (os : OS) (self : Wrapper)
    (rom_path palette_path : String) : Option ResultL × List Event :=
  self.run_command os (import_shared_palette_cmd rom_path palette_path)

def Wrapper.export_all_map16 (os : OS) (self : Wrapper)
    (rom_path map16_path : String) : Option ResultL × List Event :=
  self.run_command os (export_all_map16_cmd rom_path map16_path)

def Wrapper.import_all_map16 (os : OS) (self : Wrapper)
    (rom_path map16_path : String) : Option ResultL × List Event :=
  self.run_command os (import_all_map16_cmd rom_path map16_path)

def Wrapper.export_mult_levels (os : OS) (self : Wrapper)
    (rom_path mwl_path : String) (flags : Option LevelExportFlag) :
    Option ResultL × List Event :=
  self.run_command os (export_mult_levels_cmd rom_path mwl_path flags)

def Wrapper.import_mult_levels (os : OS) (self : Wrapper)
    (rom_path level_directory : String) (flags : Option LevelImportFlag) :
    Option ResultL × List Event :=
  self.run_command os (import_mult_levels_cmd rom_path level_directory flags)

def Wrapper.expand_rom (os : OS) (self : Wrapper) (rom_path : String)
    (rom_size : RomSize) : Option ResultL × List Event :=
  self.run_command os (expand_rom_cmd rom_path rom_size)

def Wrapper.change_compression (os : OS) (self : Wrapper) (rom_path : String)
    (compression_format : CompressionFormat) : Option ResultL × List Event :=
  self.run_command os (change_compression_cmd rom_path compression_format)

def Wrapper.transfer_level_global_exanim (os : OS) (self : Wrapper)
    (dest_rom_path src_rom_path : String) : Option ResultL × List Event :=
  self.run_command os (transfer_level_global_exanim_cmd dest_rom_path src_rom_path)

def Wrapper.transfer_overworld (os : OS) (self : Wrapper)
    (dest_rom_path src_rom_path : String) : Option ResultL × List Event :=
  self.run_command os (transfer_overworld_cmd dest_rom_path src_rom_path)

def Wrapper.transfer_title_screen (os : OS) (self : Wrapper)
    (dest_rom_path src_rom_path : String) : Option ResultL × List Event :=
  self.run_command os (transfer_title_screen_cmd dest_rom_path src_rom_path)

def Wrapper.transfer_credits (os : OS) (self : Wrapper)
    (dest_rom_path src_rom_path : String) : Option ResultL × List Event :=
  self.run_command os (transfer_credits_cmd dest_rom_path src_rom_path)

def Wrapper.export_title_moves (os : OS) (self : Wrapper)
    (rom_path title_moves_path : String) : Option ResultL × List Event :=
  self.run_command os (export_title_moves_cmd rom_path title_moves_path)

def Wrapper.import_title_moves (os : OS) (self : Wrapper)
    (rom_path title_moves_path : String) : Option ResultL × List Event :=
  self.run_command os (import_title_moves_cmd rom_path title_moves_path)

/-! ### Enumeration of the supported operations

`OpCall` packages one call of any of the 23 public operation methods with its
arguments, so that properties quantified over "every supported operation" are
single statements.  `Wrapper.call` dispatches to the corresponding method and
`OpCall.cmdString` to the corresponding argument-string builder. -/

inductive OpCall where
  | export_gfx (rom_path : String)
  | export_exgfx (rom_path : String)
  | import_gfx (rom_path : String)
  | import_exgfx (rom_path : String)
  | import_all_graphics (rom_path : String)
  | export_level (rom_path mwl_path : String) (level_number : Nat)
  | import_level (rom_path mwl_path : String) (level_number : Option Nat)
  | import_map16 (rom_path map16_path : String) (level_number : Nat)
      (location : Option (Nat × Nat))
  | import_custom_palette (rom_path palette_path : String) (level_number : Nat)
  | export_shared_palette (rom_path palette_path : String)
  | import_shared_palette (rom_path palette_path : String)
  | export_all_map16 (rom_path map16_path : String)
  | import_all_map16 (rom_path map16_path : String)
  | export_mult_levels (rom_path mwl_path : String) (flags : Option LevelExportFlag)
  | import_mult_levels (rom_path level_directory : String)
      (flags : Option LevelImportFlag)
  | expand_rom (rom_path : String) (rom_size : RomSize)
  | change_compression (rom_path : String) (compression_format : CompressionFormat)
  | transfer_level_global_exanim (dest_rom_path src_rom_path : String)
  | transfer_overworld (dest_rom_path src_rom_path : String)
  | transfer_title_screen (dest_rom_path src_rom_path : String)
  | transfer_credits (dest_rom_path src_rom_path : String)
  | export_title_moves (rom_path title_moves_path : String)
  | import_title_moves (rom_path title_moves_path : String)
deriving DecidableEq, Repr

/-- The rendered argument string of an operation call. -/
def OpCall.cmdString : OpCall → String
  | .export_gfx rom => export_gfx_cmd rom
  | .export_exgfx rom => export_exgfx_cmd rom
  | .import_gfx rom => import_gfx_cmd rom
  | .import_exgfx rom => import_exgfx_cmd rom
  | .import_all_graphics rom => import_all_graphics_cmd rom
  | .export_level rom mwl lvl => export_level_cmd rom mwl lvl
  | .import_level rom mwl lvl => import_level_cmd rom mwl lvl
  | .import_map16 rom m16 lvl loc => import_map16_cmd rom m16 lvl loc
  | .import_custom_palette rom pal lvl => import_custom_palette_cmd rom pal lvl
  | .export_shared_palette rom pal => export_shared_palette_cmd rom pal
  | .import_shared_palette rom pal => import_shared_palette_cmd rom pal
  | .export_all_map16 rom m16 => export_all_map16_cmd rom m16
  | .import_all_map16 rom m16 => import_all_map16_cmd rom m16
  | .export_mult_levels rom mwl flags => export_mult_levels_cmd rom mwl flags
  | .import_mult_levels rom dir flags => import_mult_levels_cmd rom dir flags
  | .expand_rom rom size => expand_rom_cmd rom size
  | .change_compression rom fmt => change_compression_cmd rom fmt
  | .transfer_level_global_exanim dst src => transfer_level_global_exanim_cmd dst src
  | .transfer_overworld dst src => transfer_overworld_cmd dst src
  | .transfer_title_screen dst src => transfer_title_screen_cmd dst src
  | .transfer_credits dst src => transfer_credits_cmd dst src
  | .export_title_moves rom moves => export_title_moves_cmd rom moves
  | .import_title_moves rom moves => import_title_moves_cmd rom moves

/-- Dispatch an operation call to its public method. -/
def Wrapper.call (os : OS) (self : Wrapper) : OpCall → Option ResultL × List Event
  | .export_gfx rom => self.export_gfx os rom
  | .export_exgfx rom => self.export_exgfx os rom
  | .import_gfx rom => self.import_gfx os rom
  | .import_exgfx rom => self.import_exgfx os rom
  | .import_all_graphics rom => self.import_all_graphics os rom
  | .export_level rom mwl lvl => self.export_level os rom mwl lvl
  | .import_level rom mwl lvl => self.import_level os rom mwl lvl
  | .import_map16 rom m16 lvl loc => self.import_map16 os rom m16 lvl loc
  | .import_custom_palette rom pal lvl => self.import_custom_palette os rom pal lvl
  | .export_shared_palette rom pal => self.export_shared_palette os rom pal
  | .import_shared_palette rom pal => self.import_shared_palette os rom pal
  | .export_all_map16 rom m16 => self.export_all_map16 os rom m16
  | .import_all_map16 rom m16 => self.import_all_map16 os rom m16
  | .export_mult_levels rom mwl flags => self.export_mult_levels os rom mwl flags
  | .import_mult_levels rom dir flags => self.import_mult_levels os rom dir flags
  | .expand_rom rom size => self.expand_rom os rom size
  | .change_compression rom fmt => self.change_compression os rom fmt
  | .transfer_level_global_exanim dst src =>
      self.transfer_level_global_exanim os dst src
  | .transfer_overworld dst src => self.transfer_overworld os dst src
  | .transfer_title_screen dst src => self.transfer_title_screen os dst src
  | .transfer_credits dst src => self.transfer_credits os dst src
  | .export_title_moves rom moves => self.export_title_moves os rom moves
  | .import_title_moves rom moves => self.import_title_moves os rom moves

/-- The path arguments of an operation call, in the order they are rendered. -/
def OpCall.pathArgs : OpCall → List String
  | .export_gfx rom => [rom]
  | .export_exgfx rom => [rom]
  | .import_gfx rom => [rom]
  | .import_exgfx rom => [rom]
  | .import_all_graphics rom => [rom]
  | .export_level rom mwl _ => [rom, mwl]
  | .import_level rom mwl _ => [rom, mwl]
  | .import_map16 rom m16 _ _ => [rom, m16]
  | .import_custom_palette rom pal _ => [rom, pal]
  | .export_shared_palette rom pal => [rom, pal]
  | .import_shared_palette rom pal => [rom, pal]
  | .export_all_map16 rom m16 => [rom, m16]
  | .import_all_map16 rom m16 => [rom, m16]
  | .export_mult_levels rom mwl _ => [rom, mwl]
  | .import_mult_levels rom dir _ => [rom, dir]
  | .expand_rom rom _ => [rom]
  | .change_compression rom _ => [rom]
  | .transfer_level_global_exanim dst src => [dst, src]
  | .transfer_overworld dst src => [dst, src]
  | .transfer_title_screen dst src => [dst, src]
  | .transfer_credits dst src => [dst, src]
  | .export_title_moves rom moves => [rom, moves]
  | .import_title_moves rom moves => [rom, moves]

/-- Number of argument tokens an operation call renders after its keyword,
counting each path argument as one token (as it is when the path contains no
space). -/
def OpCall.argCount : OpCall → Nat
  | .export_gfx _ => 1
  | .export_exgfx _ => 1
  | .import_gfx _ => 1
  | .import_exgfx _ => 1
  | .import_all_graphics _ => 1
  | .export_level _ _ _ => 3
  | .import_level _ _ lvl => match lvl with | some _ => 3 | none => 2
  | .import_map16 _ _ _ loc => match loc with | some _ => 4 | none => 3
  | .import_custom_palette _ _ _ => 3
  | .export_shared_palette _ _ => 2
  | .import_shared_palette _ _ => 2
  | .export_all_map16 _ _ => 2
  | .import_all_map16 _ _ => 2
  | .export_mult_levels _ _ flags => match flags with | some _ => 3 | none => 2
  | .import_mult_levels _ _ flags => match flags with | some _ => 3 | none => 2
  | .expand_rom _ _ => 2
  | .change_compression _ _ => 2
  | .transfer_level_global_exanim _ _ => 2
  | .transfer_overworld _ _ => 2
  | .transfer_title_screen _ _ => 2
  | .transfer_credits _ _ => 2
  | .export_title_moves _ _ => 2
  | .import_title_moves _ _ => 2

/-! ### Helper lemmas -/

theorem ne_append_space (s t : String) : s ++ " " ++ t ≠ s := by
  intro h
  have h' := congrArg String.length h
  rw [String.length_append, String.length_append] at h'
  have hs : (" " : String).length = 1 := rfl
  omega

theorem collectLines_map_some (l : List String) : collectLines (l.map some) = some l := by
  induction l with
  | nil => rfl
  | cons s rest ih => simp [collectLines, ih]

theorem call_eq_run_command (os : OS) (w : Wrapper) (c : OpCall) :
    w.call os c = w.run_command os c.cmdString := by
  cases c <;> rfl

theorem spaceCount_space : spaceCount " " = 1 := rfl

theorem spaceCount_comma : spaceCount "," = 0 := rfl

/-! ### Claim theorems -/

/-- C3: for each operation with an optional trailing argument (level number in
`import_level`, location in `import_map16`, flags in `export_mult_levels` and
`import_mult_levels`), omitting the argument yields a command string with
strictly fewer whitespace-separated tokens than supplying it, with no
placeholder substituted; and supplying a zero flags value renders the token
`"0"`, a different command string from omitting flags. -/
theorem optional_trailing_args_drop_token :
    (∀ (rom mwl : String) (lvl : Nat),
      numTokens (import_level_cmd rom mwl none)
        < numTokens (import_level_cmd rom mwl (some lvl))) ∧
    (∀ (rom m16 : String) (lvl x y : Nat),
      numTokens (import_map16_cmd rom m16 lvl none)
        < numTokens (import_map16_cmd rom m16 lvl (some (x, y)))) ∧
    (∀ (rom mwl : String) (f : LevelExportFlag),
      numTokens (export_mult_levels_cmd rom mwl none)
        < numTokens (export_mult_levels_cmd rom mwl (some f))) ∧
    (∀ (rom dir : String) (f : LevelImportFlag),
      numTokens (import_mult_levels_cmd rom dir none)
        < numTokens (import_mult_levels_cmd rom dir (some f))) ∧
    (∀ rom mwl : String,
      export_mult_levels_cmd rom mwl (some LevelExportFlag.None)
        = export_mult_levels_cmd rom mwl none ++ " " ++ "0") ∧
    (∀ rom mwl : String,
      export_mult_levels_cmd rom mwl (some LevelExportFlag.None)
        ≠ export_mult_levels_cmd rom mwl none) ∧
    (∀ rom dir : String,
      import_mult_levels_cmd rom dir (some LevelImportFlag.None)
        = import_mult_levels_cmd rom dir none ++ " " ++ "0") ∧
    (∀ rom dir : String,
      import_mult_levels_cmd rom dir (some LevelImportFlag.None)
        ≠ import_mult_levels_cmd rom dir none) := by
  refine ⟨?_, ?_, ?_, ?_, ?_, ?_, ?_, ?_⟩
  · intro rom mwl lvl
    simp only [import_level_cmd, numTokens_eq_spaceCount, spaceCount_append,
      spaceCount_toString_nat, spaceCount_space]
    omega
  · intro rom m16 lvl x y
    simp only [import_map16_cmd, numTokens_eq_spaceCount, spaceCount_append,
      spaceCount_toString_nat, spaceCount_space, spaceCount_comma]
    omega
  · intro rom mwl f
    simp only [export_mult_levels_cmd, numTokens_eq_spaceCount, spaceCount_append,
      spaceCount_toString_nat, spaceCount_space]
    omega
  · intro rom dir f
    simp only [import_mult_levels_cmd, numTokens_eq_spaceCount, spaceCount_append,
      spaceCount_toString_nat, spaceCount_space]
    omega
  · intro rom mwl; rfl
  · intro rom mwl
    exact ne_append_space (export_mult_levels_cmd rom mwl none)
      (toString LevelExportFlag.None.bits)
  · intro rom dir; rfl
  · intro rom dir
    exact ne_append_space (import_mult_levels_cmd rom dir none)
      (toString LevelImportFlag.None.bits)

/-- C6: the enumerated-token rendering functions are exact and case-sensitive:
each `RomSize` variant renders to its documented literal, each
`CompressionFormat` variant to its documented literal, and no other output is
possible. -/
theorem enumerated_token_rendering_exact :
    RomSize._2mb.to_string = "2MB" ∧
    RomSize._3mb.to_string = "3MB" ∧
    RomSize._4mb.to_string = "4MB" ∧
    RomSize._6mbSa1.to_string = "6MB_SA1" ∧
    RomSize._8mbSa1.to_string = "8MB_SA1" ∧
    CompressionFormat.LcLz2Orig.to_string = "LC_LZ2_Orig" ∧
    CompressionFormat.LcLz2Speed.to_string = "LC_LZ2_Speed" ∧
    CompressionFormat.LcLz3.to_string = "LC_LZ3" ∧
    (∀ r : RomSize, r.to_string ∈ ["2MB", "3MB", "4MB", "6MB_SA1", "8MB_SA1"]) ∧
    (∀ f : CompressionFormat,
      f.to_string ∈ ["LC_LZ2_Orig", "LC_LZ2_Speed", "LC_LZ3"]) := by
  refine ⟨rfl, rfl, rfl, rfl, rfl, rfl, rfl, rfl, ?_, ?_⟩
  · intro r; cases r <;> simp [RomSize.to_string]
  · intro f; cases f <;> simp [CompressionFormat.to_string]

/-- C7: flags combine by bitwise or, so combination is associative,
commutative and idempotent; the numeric values are `ClearSecondaryExits = 1`
and `None = 0` for level-import flags, `OnlyModifiedLevels = 1` and `None = 0`
for level-export flags; and when flags are supplied the command string carries
their combined bits rendered as an unsigned decimal integer. -/
theorem flag_combination_or_algebra :
    (∀ a b c : LevelImportFlag, (a.or b).or c = a.or (b.or c)) ∧
    (∀ a b : LevelImportFlag, a.or b = b.or a) ∧
    (∀ a : LevelImportFlag, a.or a = a) ∧
    (∀ a b c : LevelExportFlag, (a.or b).or c = a.or (b.or c)) ∧
    (∀ a b : LevelExportFlag, a.or b = b.or a) ∧
    (∀ a : LevelExportFlag, a.or a = a) ∧
    LevelImportFlag.ClearSecondaryExits.or LevelImportFlag.ClearSecondaryExits
      = LevelImportFlag.ClearSecondaryExits ∧
    LevelImportFlag.ClearSecondaryExits.bits = 1 ∧
    LevelImportFlag.None.bits = 0 ∧
    LevelExportFlag.OnlyModifiedLevels.bits = 1 ∧
    LevelExportFlag.None.bits = 0 ∧
    (∀ (rom mwl : String) (f g : LevelExportFlag),
      export_mult_levels_cmd rom mwl (some (f.or g))
        = "-ExportMultLevels " ++ rom ++ " " ++ mwl ++ " " ++
            toString (f.bits ||| g.bits)) ∧
    (∀ (rom dir : String) (f g : LevelImportFlag),
      import_mult_levels_cmd rom dir (some (f.or g))
        = "-ImportMultLevels " ++ rom ++ " " ++ dir ++ " " ++
            toString (f.bits ||| g.bits)) := by
  refine ⟨?_, ?_, ?_, ?_, ?_, ?_, rfl, rfl, rfl, rfl, rfl, ?_, ?_⟩
  · intro a b c; simp [LevelImportFlag.or, Nat.lor_assoc]
  · intro a b; simp [LevelImportFlag.or, Nat.lor_comm]
  · intro a; simp [LevelImportFlag.or]
  · intro a b c; simp [LevelExportFlag.or, Nat.lor_assoc]
  · intro a b; simp [LevelExportFlag.or, Nat.lor_comm]
  · intro a; simp [LevelExportFlag.or]
  · intro rom mwl f g; rfl
  · intro rom dir f g; rfl

/-- Concrete oracle: everything succeeds, the external process writes two
readable lines and exits 0. -/
def osOkRun : OS where
  path_exists := fun _ => true
  tempdir := some "T"
  spawn := fun _ => some ⟨some 0⟩
  open_file := fun _ => some [some "line one", some "line two"]

/-- C1: when the temporary directory, the process launch and the log open all
succeed and the log holds `lines`, a zero exit code yields `Ok lines` (exactly
the log lines, in order), while a non-zero or absent exit code yields the
`Operation` error carrying that exit code, the full command line and the same
collected lines. -/
theorem run_and_log_exit_status_classification (os : OS) (w : Wrapper)
    (cs d : String) (res : ProcessOutput) (lines : List String)
    (hdir : os.tempdir = some d)
    (hspawn : os.spawn (shellLine (w.lunar_magic_path ++ " " ++ cs) (logFilePath d))
      = some res)
    (hopen : os.open_file (logFilePath d) = some (lines.map some)) :
    (res.status = some 0 →
      (w.run_and_log os cs).1 = some (Except.ok lines)) ∧
    (res.status ≠ some 0 →
      (w.run_and_log os cs).1 = some (Except.error (WrapperErr.Operation res.status
        (w.lunar_magic_path ++ " " ++ cs) lines))) := by
  constructor <;> intro hst <;>
    simp [Wrapper.run_and_log, hdir, hspawn, hopen, collectLines_map_some,
      ProcessOutput.success, beq_iff_eq, hst]

/-- Witness for C1 at a concrete oracle: the stub tool writes two known lines
and exits 0, and the invocation returns exactly those lines in order. -/
theorem run_and_log_exit_status_classification_witness :
    ((Wrapper.mk "C:/lm.exe").run_and_log osOkRun "-ExportGFX C:/rom.smc").1
      = some (Except.ok ["line one", "line two"]) :=
  (run_and_log_exit_status_classification osOkRun (Wrapper.mk "C:/lm.exe")
    "-ExportGFX C:/rom.smc" "T" ⟨some 0⟩ ["line one", "line two"]
    rfl rfl rfl).1 rfl

/-- Concrete oracle whose tool path never exists. -/
def osMissingTool : OS where
  path_exists := fun _ => false
  tempdir := some "T"
  spawn := fun _ => some ⟨some 0⟩
  open_file := fun _ => some []

/-- C2: for every supported operation, when the configured tool path does not
exist, the result is the `LunarMagicMissing` error carrying the fully composed
command line (tool path, a space, the rendered argument string), and the event
trace is empty: no temporary directory is created and no process is
spawned. -/
theorem tool_missing_short_circuits (os : OS) (w : Wrapper) (c : OpCall)
    (h : os.path_exists w.lunar_magic_path = false) :
    w.call os c = (some (Except.error (WrapperErr.LunarMagicMissing
      (w.lunar_magic_path ++ " " ++ c.cmdString))), []) ∧
    (∀ dir, Event.tempDirCreated dir ∉ (w.call os c).2) ∧
    (∀ args, Event.processLaunched args ∉ (w.call os c).2) := by
  have hr : w.call os c = (some (Except.error (WrapperErr.LunarMagicMissing
      (w.lunar_magic_path ++ " " ++ c.cmdString))), []) := by
    rw [call_eq_run_command]
    simp [Wrapper.run_command, h]
  rw [hr]
  exact ⟨rfl, by simp, by simp⟩

/-- Witness for C2 at a concrete operation and a non-existent tool path. -/
theorem tool_missing_short_circuits_witness :
    (Wrapper.mk "C:/absent/lm.exe").call osMissingTool (OpCall.export_gfx "C:/rom.smc")
      = (some (Except.error (WrapperErr.LunarMagicMissing
          "C:/absent/lm.exe -ExportGFX C:/rom.smc")), []) :=
  (tool_missing_short_circuits osMissingTool (Wrapper.mk "C:/absent/lm.exe")
    (OpCall.export_gfx "C:/rom.smc") rfl).1

/-- Concrete oracle where temporary-directory creation fails. -/
def osNoTempDir : OS where
  path_exists := fun _ => true
  tempdir := none
  spawn := fun _ => some ⟨some 0⟩
  open_file := fun _ => some []

/-- C4: once the tool path exists, the remaining failures are classified by
stage, each error carrying the fully composed command line: a failed
temporary-directory creation yields `NoTempDir` before any process launch; a
failed process launch yields `FailedToExecute`, whose error value carries no
output lines; a launched process whose log cannot be opened yields
`NoTempFile`, an error distinct from `Operation`. -/
theorem post_check_failures_classified_by_stage (os : OS) (w : Wrapper) (cs : String) :
    (os.tempdir = none →
      w.run_and_log os cs
        = (some (Except.error (WrapperErr.NoTempDir
            (w.lunar_magic_path ++ " " ++ cs))), []) ∧
      (∀ args, Event.processLaunched args ∉ (w.run_and_log os cs).2)) ∧
    (∀ d, os.tempdir = some d →
      os.spawn (shellLine (w.lunar_magic_path ++ " " ++ cs) (logFilePath d)) = none →
      w.run_and_log os cs
        = (some (Except.error (WrapperErr.FailedToExecute
            (w.lunar_magic_path ++ " " ++ cs))),
           [Event.tempDirCreated d, Event.tempDirReleased d])) ∧
    (∀ d res, os.tempdir = some d →
      os.spawn (shellLine (w.lunar_magic_path ++ " " ++ cs) (logFilePath d)) = some res →
      os.open_file (logFilePath d) = none →
      w.run_and_log os cs
        = (some (Except.error (WrapperErr.NoTempFile
            (w.lunar_magic_path ++ " " ++ cs))),
           [Event.tempDirCreated d,
            Event.processLaunched
              (shellLine (w.lunar_magic_path ++ " " ++ cs) (logFilePath d)),
            Event.tempDirReleased d])) ∧
    (∀ cmd code out, WrapperErr.NoTempFile cmd ≠ WrapperErr.Operation code cmd out) := by
  refine ⟨fun h => ⟨?_, ?_⟩, fun d hd hs => ?_, fun d res hd hs ho => ?_,
    fun cmd code out => by simp⟩
  · simp [Wrapper.run_and_log, h]
  · simp [Wrapper.run_and_log, h]
  · simp [Wrapper.run_and_log, hd, hs]
  · simp [Wrapper.run_and_log, hd, hs, ho]

/-- Witness for C4 at a concrete oracle whose temporary-directory creation
fails. -/
theorem post_check_failures_classified_by_stage_witness :
    (Wrapper.mk "C:/lm.exe").run_and_log osNoTempDir "-ExportGFX C:/rom.smc"
      = (some (Except.error (WrapperErr.NoTempDir
          "C:/lm.exe -ExportGFX C:/rom.smc")), []) :=
  ((post_check_failures_classified_by_stage osNoTempDir (Wrapper.mk "C:/lm.exe")
    "-ExportGFX C:/rom.smc").1 rfl).1

/-- Concrete oracle where the log file opens but its single line fails to
read (for example it holds invalid UTF-8 bytes). -/
def osUnreadableLine : OS where
  path_exists := fun _ => true
  tempdir := some "T"
  spawn := fun _ => some ⟨some 0⟩
  open_file := fun _ => some [none]

/-- Counterexample to C5 as stated: with the log file opened successfully but
one line failing to read, collecting the lines aborts — the code calls
`expect("Failed to read line")`, which panics (the result component `none` of
the model).  So a line that cannot be read is not treated as best-effort
text. -/
theorem line_read_failure_aborts :
    ((Wrapper.mk "C:/lm.exe").run_and_log osUnreadableLine "-ExportGFX C:/rom.smc").1
      = none := rfl

/-- C5 (amended): collecting the log lines panics exactly on a failed line
read; whenever every line of the opened log file reads successfully, the
collection completes and the invocation does not abort. -/
theorem collect_lines_no_abort_when_readable (os : OS) (w : Wrapper)
    (cs d : String) (res : ProcessOutput) (lines : List String)
    (hdir : os.tempdir = some d)
    (hspawn : os.spawn (shellLine (w.lunar_magic_path ++ " " ++ cs) (logFilePath d))
      = some res)
    (hopen : os.open_file (logFilePath d) = some (lines.map some)) :
    (w.run_and_log os cs).1 ≠ none := by
  by_cases hb : res.success = true <;>
    simp [Wrapper.run_and_log, hdir, hspawn, hopen, collectLines_map_some, hb]

/-- Witness for the amended C5 at a concrete oracle with readable lines. -/
theorem collect_lines_no_abort_when_readable_witness :
    ((Wrapper.mk "C:/lm.exe").run_and_log osOkRun "-ExportGFX C:/rom.smc").1 ≠ none :=
  collect_lines_no_abort_when_readable osOkRun (Wrapper.mk "C:/lm.exe")
    "-ExportGFX C:/rom.smc" "T" ⟨some 0⟩ ["line one", "line two"] rfl rfl rfl

/-- Tests whether an event is a temporary-directory creation. -/
def Event.isTempDirCreated : Event → Bool
  | .tempDirCreated _ => true
  | _ => false

/-- Tests whether an event is a temporary-directory release. -/
def Event.isTempDirReleased : Event → Bool
  | .tempDirReleased _ => true
  | _ => false

/-- Once the temporary directory `d` is created, the event trace of
`run_and_log` is one of three lists, each beginning with the creation of `d`
and ending with its release. -/
theorem run_and_log_events (os : OS) (w : Wrapper) (cs d : String)
    (hdir : os.tempdir = some d) :
    (w.run_and_log os cs).2
        = [Event.tempDirCreated d, Event.tempDirReleased d] ∨
    (w.run_and_log os cs).2
        = [Event.tempDirCreated d,
           Event.processLaunched
             (shellLine (w.lunar_magic_path ++ " " ++ cs) (logFilePath d)),
           Event.tempDirReleased d] ∨
    (w.run_and_log os cs).2
        = [Event.tempDirCreated d,
           Event.processLaunched
             (shellLine (w.lunar_magic_path ++ " " ++ cs) (logFilePath d)),
           Event.logOpened (logFilePath d), Event.tempDirReleased d] := by
  rcases hs : os.spawn (shellLine (w.lunar_magic_path ++ " " ++ cs) (logFilePath d))
    with _ | res
  · left; simp [Wrapper.run_and_log, hdir, hs]
  · rcases ho : os.open_file (logFilePath d) with _ | lr
    · right; left; simp [Wrapper.run_and_log, hdir, hs, ho]
    · rcases hc : collectLines lr with _ | out
      · right; right; simp [Wrapper.run_and_log, hdir, hs, ho, hc]
      · rcases hb : res.success with _ | _ <;>
          (right; right; simp [Wrapper.run_and_log, hdir, hs, ho, hc, hb])

/-- Paths of log files inside distinct temporary directories are distinct. -/
theorem logFilePath_injective (d₁ d₂ : String) (h : logFilePath d₁ = logFilePath d₂) :
    d₁ = d₂ := by
  have h' := congrArg String.data h
  simp only [logFilePath, String.data_append, List.append_assoc] at h'
  exact String.ext (List.append_cancel_right h')

/-- C8: each invocation that obtains a temporary directory creates exactly one
temporary directory holding exactly one log file, releases it on every exit
path (the trace starts with the creation and ends with the release, each
occurring exactly once), every opened log file lies inside that directory, and
invocations given distinct temporary directories use distinct log files. -/
theorem one_temp_dir_one_log_per_invocation (os : OS) (w : Wrapper) (cs d : String)
    (hdir : os.tempdir = some d) :
    ((w.run_and_log os cs).2.countP Event.isTempDirCreated = 1) ∧
    ((w.run_and_log os cs).2.count (Event.tempDirCreated d) = 1) ∧
    ((w.run_and_log os cs).2.countP Event.isTempDirReleased = 1) ∧
    ((w.run_and_log os cs).2.count (Event.tempDirReleased d) = 1) ∧
    ((w.run_and_log os cs).2.head? = some (Event.tempDirCreated d)) ∧
    ((w.run_and_log os cs).2.getLast? = some (Event.tempDirReleased d)) ∧
    (∀ f, Event.logOpened f ∈ (w.run_and_log os cs).2 → f = logFilePath d) ∧
    (∀ d₂, logFilePath d = logFilePath d₂ → d = d₂) := by
  rcases run_and_log_events os w cs d hdir with hev | hev | hev <;> rw [hev] <;>
    refine ⟨?_, ?_, ?_, ?_, rfl, rfl, ?_, fun d₂ h => logFilePath_injective d d₂ h⟩ <;>
    simp [List.countP_cons, List.countP_nil, List.count_cons, List.count_nil,
      Event.isTempDirCreated, Event.isTempDirReleased, beq_iff_eq]

/-- Witness for C8 at a concrete oracle. -/
theorem one_temp_dir_one_log_per_invocation_witness :
    (((Wrapper.mk "C:/lm.exe").run_and_log osOkRun "-ExportGFX C:/rom.smc").2.countP
        Event.isTempDirCreated = 1) ∧
    (((Wrapper.mk "C:/lm.exe").run_and_log osOkRun "-ExportGFX C:/rom.smc").2.getLast?
        = some (Event.tempDirReleased "T")) :=
  ⟨(one_temp_dir_one_log_per_invocation osOkRun (Wrapper.mk "C:/lm.exe")
      "-ExportGFX C:/rom.smc" "T" rfl).1,
   (one_temp_dir_one_log_per_invocation osOkRun (Wrapper.mk "C:/lm.exe")
      "-ExportGFX C:/rom.smc" "T" rfl).2.2.2.2.2.1⟩

/-- Every error produced by `run_and_log` carries the fully composed command
line: the stored tool path, a space, and the argument string. -/
theorem run_and_log_error_command (os : OS) (w : Wrapper) (cs : String)
    (e : WrapperErr) (ev : List Event)
    (h : w.run_and_log os cs = (some (Except.error e), ev)) :
    e.command = w.lunar_magic_path ++ " " ++ cs := by
  rcases hd : os.tempdir with _ | d
  · simp [Wrapper.run_and_log, hd] at h
    simp [← h.1, WrapperErr.command]
  · rcases hs : os.spawn (shellLine (w.lunar_magic_path ++ " " ++ cs) (logFilePath d))
      with _ | res
    · simp [Wrapper.run_and_log, hd, hs] at h
      simp [← h.1, WrapperErr.command]
    · rcases ho : os.open_file (logFilePath d) with _ | lr
      · simp [Wrapper.run_and_log, hd, hs, ho] at h
        simp [← h.1, WrapperErr.command]
      · rcases hc : collectLines lr with _ | out
        · simp [Wrapper.run_and_log, hd, hs, ho, hc] at h
        · rcases hb : res.success with _ | _
          · simp [Wrapper.run_and_log, hd, hs, ho, hc, hb] at h
            simp [← h.1, WrapperErr.command]
          · simp [Wrapper.run_and_log, hd, hs, ho, hc, hb] at h

/-- Every error produced by `run_command` carries the fully composed command
line. -/
theorem run_command_error_command (os : OS) (w : Wrapper) (cs : String)
    (e : WrapperErr) (ev : List Event)
    (h : w.run_command os cs = (some (Except.error e), ev)) :
    e.command = w.lunar_magic_path ++ " " ++ cs := by
  rcases hp : os.path_exists w.lunar_magic_path with _ | _
  · simp [Wrapper.run_command, hp] at h
    simp [← h.1, WrapperErr.command]
  · simp only [Wrapper.run_command, hp, Bool.not_true, Bool.false_eq_true,
      if_false] at h
    exact run_and_log_error_command os w cs e ev h

/-- The rendered argument string of every operation starts with a dash. -/
theorem cmdString_starts_with_dash (c : OpCall) : c.cmdString.data.head? = some '-' := by
  cases c <;> first
    | rfl
    | (rename_i opt; rcases opt with _ | x <;> rfl)

/-- C10: command construction is deterministic and the wrapper is never
mutated: wrappers with equal tool paths produce identical results for the same
operation and arguments, every error value embeds the composed command line
equal to the stored tool path, a single space, and the rendered dash-prefixed
keyword string with its arguments. -/
theorem command_construction_deterministic (os : OS) (w₁ w₂ : Wrapper) (c : OpCall)
    (h : w₁.lunar_magic_path = w₂.lunar_magic_path) :
    w₁.call os c = w₂.call os c ∧
    (∀ (e : WrapperErr) (ev : List Event),
      w₁.call os c = (some (Except.error e), ev) →
      e.command = w₁.lunar_magic_path ++ " " ++ c.cmdString) ∧
    c.cmdString.data.head? = some '-' := by
  refine ⟨congrArg (fun p => Wrapper.call os ⟨p⟩ c) h, fun e ev he => ?_,
    cmdString_starts_with_dash c⟩
  rw [call_eq_run_command] at he
  exact run_command_error_command os w₁ c.cmdString e ev he

/-- Witness for C10 at two concrete wrappers holding equal tool paths. -/
theorem command_construction_deterministic_witness :
    (Wrapper.mk "C:/lm.exe").call osMissingTool (OpCall.export_level "r.smc" "l.mwl" 105)
      = (Wrapper.mk "C:/lm.exe").call osMissingTool
          (OpCall.export_level "r.smc" "l.mwl" 105) ∧
    (OpCall.export_level "r.smc" "l.mwl" 105).cmdString.data.head? = some '-' :=
  ⟨(command_construction_deterministic osMissingTool (Wrapper.mk "C:/lm.exe")
      (Wrapper.mk "C:/lm.exe") (OpCall.export_level "r.smc" "l.mwl" 105) rfl).1,
   (command_construction_deterministic osMissingTool (Wrapper.mk "C:/lm.exe")
      (Wrapper.mk "C:/lm.exe") (OpCall.export_level "r.smc" "l.mwl" 105) rfl).2.2⟩

/-! ### Space counts of the fixed keyword literals -/

theorem scKwExportGFX : spaceCount "-ExportGFX " = 1 := rfl

theorem scKwExportExGFX : spaceCount "-ExportExGFX " = 1 := rfl

theorem scKwImportGFX : spaceCount "-ImportGFX " = 1 := rfl

theorem scKwImportExGFX : spaceCount "-ImportExGFX " = 1 := rfl

theorem scKwImportAllGraphics : spaceCount "-ImportAllGraphics " = 1 := rfl

theorem scKwExportLevel : spaceCount "-ExportLevel " = 1 := rfl

theorem scKwImportLevel : spaceCount "-ImportLevel " = 1 := rfl

theorem scKwImportMap16 : spaceCount "-ImportMap16 " = 1 := rfl

theorem scKwImportCustomPalette : spaceCount "-ImportCustomPalette " = 1 := rfl

theorem scKwExportSharedPalette : spaceCount "-ExportSharedPalette " = 1 := rfl

theorem scKwImportSharedPalette : spaceCount "-ImportSharedPalette " = 1 := rfl

theorem scKwExportAllMap16 : spaceCount "-ExportAllMap16 " = 1 := rfl

theorem scKwImportAllMap16 : spaceCount "-ImportAllMap16 " = 1 := rfl

theorem scKwExportMultLevels : spaceCount "-ExportMultLevels " = 1 := rfl

theorem scKwImportMultLevels : spaceCount "-ImportMultLevels " = 1 := rfl

theorem scKwExpandROM : spaceCount "-ExpandROM " = 1 := rfl

theorem scKwChangeCompression : spaceCount "-ChangeCompression " = 1 := rfl

theorem scKwTransferLevelGlobalExAnim :
    spaceCount "-TransferLevelGlobalExAnim " = 1 := rfl

theorem scKwTransferOverworld : spaceCount "-TransferOverworld " = 1 := rfl

theorem scKwTransferTitleScreen : spaceCount "-TransferTitleScreen " = 1 := rfl

theorem scKwTransferCredits : spaceCount "-TransferCredits " = 1 := rfl

theorem scKwExportTitleMoves : spaceCount "-ExportTitleMoves " = 1 := rfl

theorem scKwImportTitleMoves : spaceCount "-ImportTitleMoves " = 1 := rfl

theorem spaceCount_RomSize (r : RomSize) : spaceCount r.to_string = 0 := by
  cases r <;> rfl

theorem spaceCount_CompressionFormat (f : CompressionFormat) :
    spaceCount f.to_string = 0 := by
  cases f <;> rfl

theorem numTokens_main_command (a b : String) :
    numTokens (a ++ " " ++ b) = numTokens a + numTokens b := by
  simp only [numTokens_eq_spaceCount, spaceCount_append, spaceCount_space]
  omega

/-- Decomposing the shell argument line around a path argument: whenever the
argument string splits as `A ++ p ++ B`, the full shell line splits around the
same `p` with the tool path and the redirection glued on the outside. -/
theorem shellLine_decomp (toolPath cs A p B d : String) (h : cs = A ++ p ++ B) :
    shellLine (toolPath ++ " " ++ cs) (logFilePath d)
      = (toolPath ++ " " ++ A) ++ p ++ (B ++ " > " ++ logFilePath d) := by
  subst h
  simp [shellLine, String.append_assoc]

/-- A path argument occurring contiguously in the argument string also occurs
contiguously, unaltered, in the full shell invocation line. -/
theorem verbatim_slot (cs A p B : String) (h : cs = A ++ p ++ B) :
    ∃ A' B' : String, cs = A' ++ p ++ B' ∧
      ∀ toolPath d : String,
        shellLine (toolPath ++ " " ++ cs) (logFilePath d)
          = (toolPath ++ " " ++ A') ++ p ++ (B' ++ " > " ++ logFilePath d) :=
  ⟨A, B, h, fun toolPath d => shellLine_decomp toolPath cs A p B d h⟩

/-- The token-count equation: the rendered argument string of every operation
has one keyword token plus its argument tokens, plus one extra token per space
occurring inside a path argument (paths are never quoted or escaped). -/
theorem numTokens_cmdString (c : OpCall) :
    numTokens c.cmdString = 1 + c.argCount + (c.pathArgs.map spaceCount).sum := by
  cases c
  case import_level rom mwl lvl =>
    rcases lvl with _ | lvl <;>
      simp only [OpCall.cmdString, OpCall.argCount, OpCall.pathArgs,
        import_level_cmd, numTokens_eq_spaceCount, spaceCount_append,
        spaceCount_toString_nat, spaceCount_space, scKwImportLevel,
        List.map_cons, List.map_nil, List.sum_cons, List.sum_nil] <;> omega
  case import_map16 rom m16 lvl loc =>
    rcases loc with _ | ⟨x, y⟩ <;>
      simp only [OpCall.cmdString, OpCall.argCount, OpCall.pathArgs,
        import_map16_cmd, numTokens_eq_spaceCount, spaceCount_append,
        spaceCount_toString_nat, spaceCount_space, spaceCount_comma,
        scKwImportMap16, List.map_cons, List.map_nil, List.sum_cons,
        List.sum_nil] <;> omega
  case export_mult_levels rom mwl fl =>
    rcases fl with _ | fl <;>
      simp only [OpCall.cmdString, OpCall.argCount, OpCall.pathArgs,
        export_mult_levels_cmd, numTokens_eq_spaceCount, spaceCount_append,
        spaceCount_toString_nat, spaceCount_space, scKwExportMultLevels,
        List.map_cons, List.map_nil, List.sum_cons, List.sum_nil] <;> omega
  case import_mult_levels rom dir fl =>
    rcases fl with _ | fl <;>
      simp only [OpCall.cmdString, OpCall.argCount, OpCall.pathArgs,
        import_mult_levels_cmd, numTokens_eq_spaceCount, spaceCount_append,
        spaceCount_toString_nat, spaceCount_space, scKwImportMultLevels,
        List.map_cons, List.map_nil, List.sum_cons, List.sum_nil] <;> omega
  all_goals
    simp only [OpCall.cmdString, OpCall.argCount, OpCall.pathArgs,
      export_gfx_cmd, export_exgfx_cmd, import_gfx_cmd, import_exgfx_cmd,
      import_all_graphics_cmd, export_level_cmd, import_custom_palette_cmd,
      export_shared_palette_cmd, import_shared_palette_cmd,
      export_all_map16_cmd, import_all_map16_cmd, expand_rom_cmd,
      change_compression_cmd, transfer_level_global_exanim_cmd,
      transfer_overworld_cmd, transfer_title_screen_cmd, transfer_credits_cmd,
      export_title_moves_cmd, import_title_moves_cmd,
      numTokens_eq_spaceCount, spaceCount_append, spaceCount_toString_nat,
      spaceCount_RomSize, spaceCount_CompressionFormat, spaceCount_space,
      scKwExportGFX, scKwExportExGFX, scKwImportGFX, scKwImportExGFX,
      scKwImportAllGraphics, scKwExportLevel, scKwImportCustomPalette,
      scKwExportSharedPalette, scKwImportSharedPalette, scKwExportAllMap16,
      scKwImportAllMap16, scKwExpandROM, scKwChangeCompression,
      scKwTransferLevelGlobalExAnim, scKwTransferOverworld,
      scKwTransferTitleScreen, scKwTransferCredits, scKwExportTitleMoves,
      scKwImportTitleMoves, List.map_cons, List.map_nil, List.sum_cons,
      List.sum_nil]
  all_goals omega

/-- C9: every path argument of every operation is inserted verbatim — as a
contiguous, unaltered substring — both into the rendered argument string and
into the full shell invocation line, with no quoting or escaping added at
either layer; the token count of the argument string is exactly one keyword
token plus the argument count plus one extra token per space inside a path, so
a path containing a space strictly increases the whitespace-separated token
count of the composed command line. -/
theorem paths_inserted_verbatim :
    (∀ c : OpCall, ∀ p ∈ c.pathArgs, ∃ A B : String,
      c.cmdString = A ++ p ++ B ∧
      ∀ toolPath d : String,
        shellLine (toolPath ++ " " ++ c.cmdString) (logFilePath d)
          = (toolPath ++ " " ++ A) ++ p ++ (B ++ " > " ++ logFilePath d)) ∧
    (∀ c : OpCall,
      numTokens c.cmdString = 1 + c.argCount + (c.pathArgs.map spaceCount).sum) ∧
    (∀ (w : Wrapper) (c : OpCall),
      numTokens (w.lunar_magic_path ++ " " ++ c.cmdString)
        = numTokens w.lunar_magic_path + 1 + c.argCount
            + (c.pathArgs.map spaceCount).sum) ∧
    (∀ c : OpCall, ∀ p ∈ c.pathArgs, 0 < spaceCount p →
      1 + c.argCount < numTokens c.cmdString) := by
  refine ⟨?_, numTokens_cmdString, fun w c => ?_, fun c p hp hsp => ?_⟩
  · intro c
    cases c with
    | export_gfx rom =>
      intro p hp
      simp only [OpCall.pathArgs, List.mem_singleton] at hp
      subst hp
      exact verbatim_slot _ "-ExportGFX " _ ""
        (by simp [OpCall.cmdString, export_gfx_cmd, String.append_empty])
    | export_exgfx rom =>
      intro p hp
      simp only [OpCall.pathArgs, List.mem_singleton] at hp
      subst hp
      exact verbatim_slot _ "-ExportExGFX " _ ""
        (by simp [OpCall.cmdString, export_exgfx_cmd, String.append_empty])
    | import_gfx rom =>
      intro p hp
      simp only [OpCall.pathArgs, List.mem_singleton] at hp
      subst hp
      exact verbatim_slot _ "-ImportGFX " _ ""
        (by simp [OpCall.cmdString, import_gfx_cmd, String.append_empty])
    | import_exgfx rom =>
      intro p hp
      simp only [OpCall.pathArgs, List.mem_singleton] at hp
      subst hp
      exact verbatim_slot _ "-ImportExGFX " _ ""
        (by simp [OpCall.cmdString, import_exgfx_cmd, String.append_empty])
    | import_all_graphics rom =>
      intro p hp
      simp only [OpCall.pathArgs, List.mem_singleton] at hp
      subst hp
      exact verbatim_slot _ "-ImportAllGraphics " _ ""
        (by simp [OpCall.cmdString, import_all_graphics_cmd, String.append_empty])
    | export_level rom mwl lvl =>
      intro p hp
      simp only [OpCall.pathArgs, List.mem_cons, List.mem_singleton,
        List.not_mem_nil, or_false] at hp
      rcases hp with rfl | rfl
      · exact verbatim_slot _ "-ExportLevel " _
          (" " ++ mwl ++ " " ++ toString lvl)
          (by simp [OpCall.cmdString, export_level_cmd, String.append_assoc])
      · exact verbatim_slot _ ("-ExportLevel " ++ rom ++ " ") _
          (" " ++ toString lvl)
          (by simp [OpCall.cmdString, export_level_cmd, String.append_assoc])
    | import_level rom mwl lvl =>
      rcases lvl with _ | lvl <;>
        (intro p hp
         simp only [OpCall.pathArgs, List.mem_cons, List.mem_singleton,
           List.not_mem_nil, or_false] at hp)
      · rcases hp with rfl | rfl
        · exact verbatim_slot _ "-ImportLevel " _ (" " ++ mwl)
            (by simp [OpCall.cmdString, import_level_cmd, String.append_assoc])
        · exact verbatim_slot _ ("-ImportLevel " ++ rom ++ " ") _ ""
            (by simp [OpCall.cmdString, import_level_cmd, String.append_assoc,
              String.append_empty])
      · rcases hp with rfl | rfl
        · exact verbatim_slot _ "-ImportLevel " _
            (" " ++ mwl ++ " " ++ toString lvl)
            (by simp [OpCall.cmdString, import_level_cmd, String.append_assoc])
        · exact verbatim_slot _ ("-ImportLevel " ++ rom ++ " ") _
            (" " ++ toString lvl)
            (by simp [OpCall.cmdString, import_level_cmd, String.append_assoc])
    | import_map16 rom m16 lvl loc =>
      rcases loc with _ | ⟨x, y⟩ <;>
        (intro p hp
         simp only [OpCall.pathArgs, List.mem_cons, List.mem_singleton,
           List.not_mem_nil, or_false] at hp)
      · rcases hp with rfl | rfl
        · exact verbatim_slot _ "-ImportMap16 " _
            (" " ++ m16 ++ " " ++ toString lvl)
            (by simp [OpCall.cmdString, import_map16_cmd, String.append_assoc])
        · exact verbatim_slot _ ("-ImportMap16 " ++ rom ++ " ") _
            (" " ++ toString lvl)
            (by simp [OpCall.cmdString, import_map16_cmd, String.append_assoc])
      · rcases hp with rfl | rfl
        · exact verbatim_slot _ "-ImportMap16 " _
            (" " ++ m16 ++ " " ++ toString lvl ++ " " ++ toString x ++ "," ++
              toString y)
            (by simp [OpCall.cmdString, import_map16_cmd, String.append_assoc])
        · exact verbatim_slot _ ("-ImportMap16 " ++ rom ++ " ") _
            (" " ++ toString lvl ++ " " ++ toString x ++ "," ++ toString y)
            (by simp [OpCall.cmdString, import_map16_cmd, String.append_assoc])
    | import_custom_palette rom pal lvl =>
      intro p hp
      simp only [OpCall.pathArgs, List.mem_cons, List.mem_singleton,
        List.not_mem_nil, or_false] at hp
      rcases hp with rfl | rfl
      · exact verbatim_slot _ "-ImportCustomPalette " _
          (" " ++ pal ++ " " ++ toString lvl)
          (by simp [OpCall.cmdString, import_custom_palette_cmd,
            String.append_assoc])
      · exact verbatim_slot _ ("-ImportCustomPalette " ++ rom ++ " ") _
          (" " ++ toString lvl)
          (by simp [OpCall.cmdString, import_custom_palette_cmd,
            String.append_assoc])
    | export_shared_palette rom pal =>
      intro p hp
      simp only [OpCall.pathArgs, List.mem_cons, List.mem_singleton,
        List.not_mem_nil, or_false] at hp
      rcases hp with rfl | rfl
      · exact verbatim_slot _ "-ExportSharedPalette " _ (" " ++ pal)
          (by simp [OpCall.cmdString, export_shared_palette_cmd,
            String.append_assoc])
      · exact verbatim_slot _ ("-ExportSharedPalette " ++ rom ++ " ") _ ""
          (by simp [OpCall.cmdString, export_shared_palette_cmd,
            String.append_assoc, String.append_empty])
    | import_shared_palette rom pal =>
      intro p hp
      simp only [OpCall.pathArgs, List.mem_cons, List.mem_singleton,
        List.not_mem_nil, or_false] at hp
      rcases hp with rfl | rfl
      · exact verbatim_slot _ "-ImportSharedPalette " _ (" " ++ pal)
          (by simp [OpCall.cmdString, import_shared_palette_cmd,
            String.append_assoc])
      · exact verbatim_slot _ ("-ImportSharedPalette " ++ rom ++ " ") _ ""
          (by simp [OpCall.cmdString, import_shared_palette_cmd,
            String.append_assoc, String.append_empty])
    | export_all_map16 rom m16 =>
      intro p hp
      simp only [OpCall.pathArgs, List.mem_cons, List.mem_singleton,
        List.not_mem_nil, or_false] at hp
      rcases hp with rfl | rfl
      · exact verbatim_slot _ "-ExportAllMap16 " _ (" " ++ m16)
          (by simp [OpCall.cmdString, export_all_map16_cmd, String.append_assoc])
      · exact verbatim_slot _ ("-ExportAllMap16 " ++ rom ++ " ") _ ""
          (by simp [OpCall.cmdString, export_all_map16_cmd,
            String.append_assoc, String.append_empty])
    | import_all_map16 rom m16 =>
      intro p hp
      simp only [OpCall.pathArgs, List.mem_cons, List.mem_singleton,
        List.not_mem_nil, or_false] at hp
      rcases hp with rfl | rfl
      · exact verbatim_slot _ "-ImportAllMap16 " _ (" " ++ m16)
          (by simp [OpCall.cmdString, import_all_map16_cmd, String.append_assoc])
      · exact verbatim_slot _ ("-ImportAllMap16 " ++ rom ++ " ") _ ""
          (by simp [OpCall.cmdString, import_all_map16_cmd,
            String.append_assoc, String.append_empty])
    | export_mult_levels rom mwl fl =>
      rcases fl with _ | fl <;>
        (intro p hp
         simp only [OpCall.pathArgs, List.mem_cons, List.mem_singleton,
           List.not_mem_nil, or_false] at hp)
      · rcases hp with rfl | rfl
        · exact verbatim_slot _ "-ExportMultLevels " _ (" " ++ mwl)
            (by simp [OpCall.cmdString, export_mult_levels_cmd,
              String.append_assoc])
        · exact verbatim_slot _ ("-ExportMultLevels " ++ rom ++ " ") _ ""
            (by simp [OpCall.cmdString, export_mult_levels_cmd,
              String.append_assoc, String.append_empty])
      · rcases hp with rfl | rfl
        · exact verbatim_slot _ "-ExportMultLevels " _
            (" " ++ mwl ++ " " ++ toString fl.bits)
            (by simp [OpCall.cmdString, export_mult_levels_cmd,
              String.append_assoc])
        · exact verbatim_slot _ ("-ExportMultLevels " ++ rom ++ " ") _
            (" " ++ toString fl.bits)
            (by simp [OpCall.cmdString, export_mult_levels_cmd,
              String.append_assoc])
    | import_mult_levels rom dir fl =>
      rcases fl with _ | fl <;>
        (intro p hp
         simp only [OpCall.pathArgs, List.mem_cons, List.mem_singleton,
           List.not_mem_nil, or_false] at hp)
      · rcases hp with rfl | rfl
        · exact verbatim_slot _ "-ImportMultLevels " _ (" " ++ dir)
            (by simp [OpCall.cmdString, import_mult_levels_cmd,
              String.append_assoc])
        · exact verbatim_slot _ ("-ImportMultLevels " ++ rom ++ " ") _ ""
            (by simp [OpCall.cmdString, import_mult_levels_cmd,
              String.append_assoc, String.append_empty])
      · rcases hp with rfl | rfl
        · exact verbatim_slot _ "-ImportMultLevels " _
            (" " ++ dir ++ " " ++ toString fl.bits)
            (by simp [OpCall.cmdString, import_mult_levels_cmd,
              String.append_assoc])
        · exact verbatim_slot _ ("-ImportMultLevels " ++ rom ++ " ") _
            (" " ++ toString fl.bits)
            (by simp [OpCall.cmdString, import_mult_levels_cmd,
              String.append_assoc])
    | expand_rom rom rs =>
      intro p hp
      simp only [OpCall.pathArgs, List.mem_singleton] at hp
      subst hp
      exact verbatim_slot _ "-ExpandROM " _ (" " ++ rs.to_string)
        (by simp [OpCall.cmdString, expand_rom_cmd, String.append_assoc])
    | change_compression rom fmt =>
      intro p hp
      simp only [OpCall.pathArgs, List.mem_singleton] at hp
      subst hp
      exact verbatim_slot _ "-ChangeCompression " _ (" " ++ fmt.to_string)
        (by simp [OpCall.cmdString, change_compression_cmd, String.append_assoc])
    | transfer_level_global_exanim dst src =>
      intro p hp
      simp only [OpCall.pathArgs, List.mem_cons, List.mem_singleton,
        List.not_mem_nil, or_false] at hp
      rcases hp with rfl | rfl
      · exact verbatim_slot _ "-TransferLevelGlobalExAnim " _ (" " ++ src)
          (by simp [OpCall.cmdString, transfer_level_global_exanim_cmd,
            String.append_assoc])
      · exact verbatim_slot _ ("-TransferLevelGlobalExAnim " ++ dst ++ " ") _ ""
          (by simp [OpCall.cmdString, transfer_level_global_exanim_cmd,
            String.append_assoc, String.append_empty])
    | transfer_overworld dst src =>
      intro p hp
      simp only [OpCall.pathArgs, List.mem_cons, List.mem_singleton,
        List.not_mem_nil, or_false] at hp
      rcases hp with rfl | rfl
      · exact verbatim_slot _ "-TransferOverworld " _ (" " ++ src)
          (by simp [OpCall.cmdString, transfer_overworld_cmd,
            String.append_assoc])
      · exact verbatim_slot _ ("-TransferOverworld " ++ dst ++ " ") _ ""
          (by simp [OpCall.cmdString, transfer_overworld_cmd,
            String.append_assoc, String.append_empty])
    | transfer_title_screen dst src =>
      intro p hp
      simp only [OpCall.pathArgs, List.mem_cons, List.mem_singleton,
        List.not_mem_nil, or_false] at hp
      rcases hp with rfl | rfl
      · exact verbatim_slot _ "-TransferTitleScreen " _ (" " ++ src)
          (by simp [OpCall.cmdString, transfer_title_screen_cmd,
            String.append_assoc])
      · exact verbatim_slot _ ("-TransferTitleScreen " ++ dst ++ " ") _ ""
          (by simp [OpCall.cmdString, transfer_title_screen_cmd,
            String.append_assoc, String.append_empty])
    | transfer_credits dst src =>
      intro p hp
      simp only [OpCall.pathArgs, List.mem_cons, List.mem_singleton,
        List.not_mem_nil, or_false] at hp
      rcases hp with rfl | rfl
      · exact verbatim_slot _ "-TransferCredits " _ (" " ++ src)
          (by simp [OpCall.cmdString, transfer_credits_cmd, String.append_assoc])
      · exact verbatim_slot _ ("-TransferCredits " ++ dst ++ " ") _ ""
          (by simp [OpCall.cmdString, transfer_credits_cmd,
            String.append_assoc, String.append_empty])
    | export_title_moves rom mv =>
      intro p hp
      simp only [OpCall.pathArgs, List.mem_cons, List.mem_singleton,
        List.not_mem_nil, or_false] at hp
      rcases hp with rfl | rfl
      · exact verbatim_slot _ "-ExportTitleMoves " _ (" " ++ mv)
          (by simp [OpCall.cmdString, export_title_moves_cmd,
            String.append_assoc])
      · exact verbatim_slot _ ("-ExportTitleMoves " ++ rom ++ " ") _ ""
          (by simp [OpCall.cmdString, export_title_moves_cmd,
            String.append_assoc, String.append_empty])
    | import_title_moves rom mv =>
      intro p hp
      simp only [OpCall.pathArgs, List.mem_cons, List.mem_singleton,
        List.not_mem_nil, or_false] at hp
      rcases hp with rfl | rfl
      · exact verbatim_slot _ "-ImportTitleMoves " _ (" " ++ mv)
          (by simp [OpCall.cmdString, import_title_moves_cmd,
            String.append_assoc])
      · exact verbatim_slot _ ("-ImportTitleMoves " ++ rom ++ " ") _ ""
          (by simp [OpCall.cmdString, import_title_moves_cmd,
            String.append_assoc, String.append_empty])
  · rw [numTokens_main_command, numTokens_cmdString c]
    omega
  · have h1 := numTokens_cmdString c
    have h2 : spaceCount p ≤ (c.pathArgs.map spaceCount).sum :=
      List.single_le_sum (fun x _ => Nat.zero_le x) _
        (List.mem_map_of_mem spaceCount hp)
    omega

/-- Witness for C9 at a concrete operation whose path holds a space. -/
theorem paths_inserted_verbatim_witness :
    (∃ A B : String,
      (OpCall.export_gfx "C:/my hack.smc").cmdString = A ++ "C:/my hack.smc" ++ B ∧
      ∀ toolPath d : String,
        shellLine (toolPath ++ " " ++ (OpCall.export_gfx "C:/my hack.smc").cmdString)
            (logFilePath d)
          = (toolPath ++ " " ++ A) ++ "C:/my hack.smc" ++
              (B ++ " > " ++ logFilePath d)) ∧
    1 + (OpCall.export_gfx "C:/my hack.smc").argCount
      < numTokens (OpCall.export_gfx "C:/my hack.smc").cmdString :=
  ⟨paths_inserted_verbatim.1 (OpCall.export_gfx "C:/my hack.smc")
      "C:/my hack.smc" (by simp [OpCall.pathArgs]),
   paths_inserted_verbatim.2.2.2 (OpCall.export_gfx "C:/my hack.smc")
      "C:/my hack.smc" (by simp [OpCall.pathArgs]) (by decide)⟩

end LunarMagicWrapper
